import Mathlib

/-!
Shallow embedding of the Scam-Guard-AI risk scoring core
(`backend/ai/risk_engine.py`, `backend/ai/ml_model.py`, and the
combiner fragment of `backend/main.py`) together with theorems settling
the specification claims.

Python numbers are modelled as `ℚ` (ints as `ℤ`/`ℕ` where the producing
code guarantees it), dictionaries with possibly-absent keys as records of
`Option` fields, and `dict.get(k, d)` as `Option.getD`.
-/

/-! ## Generic helpers -/

/-- Python `round` on a rational: round half to even (banker's rounding). -/
def roundHalfEven (q : ℚ) : ℤ :=
  let n : ℤ := ⌊q⌋
  let f : ℚ := q - n
  if f < 1/2 then n
  else if 1/2 < f then n + 1
  else if Even n then n else n + 1

/-- Python `round(x, 2)`. -/
def pyRound2 (q : ℚ) : ℚ := (roundHalfEven (q * 100) : ℚ) / 100

/-- Python `round(x, 3)`. -/
def pyRound3 (q : ℚ) : ℚ := (roundHalfEven (q * 1000) : ℚ) / 1000

/-- Python `needle in hay` on strings: substring containment. -/
def containsSub (needle hay : String) : Bool :=
  decide (needle.data <:+: hay.data)

/-- Python `sum(c.isdigit() for c in s)`: number of digit characters. -/
def digitCount (s : String) : ℕ := (s.data.filter Char.isDigit).length

/-! ## SignalBundle data model

Each collaborator sub-record of the signal bundle, with every key
optional (`None`/absent collapse to `none`; `dict.get` defaults are
applied at each use site exactly as in the Python source). -/

structure WhoisSig where
  domain_age_days : Option ℤ := none
  domain : Option String := none
  privacy_protected : Option Bool := none
deriving Repr, DecidableEq

structure SslSig where
  has_ssl : Option Bool := none
  ssl_valid : Option Bool := none
  days_until_expiry : Option ℤ := none
deriving Repr, DecidableEq

structure BlacklistSig where
  blacklist_hits : Option ℕ := none
  blacklists : Option (List String) := none
  scam_pattern_detected : Option Bool := none
  risk_indicators : Option (List String) := none
deriving Repr, DecidableEq

structure HostingSig where
  reputation_score : Option ℤ := none
  hosting_provider : Option String := none
deriving Repr, DecidableEq

structure ContentSig where
  content_available : Option Bool := none
  high_risk_keywords : Option (List String) := none
  medium_risk_keywords : Option (List String) := none
  has_forms : Option Bool := none
  scam_score : Option ℚ := none
  risk_keyword_count : Option ℤ := none
deriving Repr, DecidableEq

structure DnsSig where
  resolved : Option Bool := none
deriving Repr, DecidableEq

/-- The raw signal bundle: `signals` dict of `main.py`; every sub-record
may be absent, mirroring `signals.get('whois', {})` etc. -/
structure SignalBundle where
  whois : Option WhoisSig := none
  ssl : Option SslSig := none
  dns : Option DnsSig := none
  blacklist : Option BlacklistSig := none
  hosting : Option HostingSig := none
  content : Option ContentSig := none
deriving Repr, DecidableEq

/-- The completely empty bundle `{}`. -/
def emptyBundle : SignalBundle := {}

namespace RiskEngine

/-- Embeds `RiskEngine._calculate_age_score`: the first matching bracket of the
`domain_age` rule table (`critical`, `high`, `medium`, `low`, in insertion
order) wins; no bracket matching returns 0. -/
def calculate_age_score (domain_age_days : ℤ) : ℚ :=
  if 0 ≤ domain_age_days ∧ domain_age_days ≤ 7 then 25
  else if 8 ≤ domain_age_days ∧ domain_age_days ≤ 30 then 20
  else if 31 ≤ domain_age_days ∧ domain_age_days ≤ 90 then 10
  else if 91 ≤ domain_age_days ∧ domain_age_days ≤ 180 then 5
  else 0

/-- Embeds `RiskEngine._calculate_ssl_score`.  The guard
`if days_until_expiry and days_until_expiry < 30` is Python truthiness:
an absent key (`None`) and the value `0` are both falsy. -/
def calculate_ssl_score (ssl : SslSig) : ℚ :=
  if ¬ ssl.has_ssl.getD false then 15
  else if ¬ ssl.ssl_valid.getD false then 10
  else
    match ssl.days_until_expiry with
    | some d => if d ≠ 0 ∧ d < 30 then 5 else 0
    | none => 0

/-- Embeds `RiskEngine._calculate_blacklist_score`: `min(hits * 30, 50)`. -/
def calculate_blacklist_score (blacklist : BlacklistSig) : ℚ :=
  min ((blacklist.blacklist_hits.getD 0 : ℚ) * 30) 50

/-- Embeds `RiskEngine._calculate_hosting_score`. -/
def calculate_hosting_score (hosting : HostingSig) : ℚ :=
  let rep := hosting.reputation_score.getD 50
  if rep < 30 then 20
  else if rep < 50 then 10
  else 0

/-- Embeds `RiskEngine._calculate_content_score`. -/
def calculate_content_score (content : ContentSig) : ℚ :=
  let high := (content.high_risk_keywords.getD []).length
  let med := (content.medium_risk_keywords.getD []).length
  (if 0 < high then (15 : ℚ) else 0)
    + (if 2 < med then 5 else 0)
    + (if content.has_forms.getD false ∧ (0 < high ∨ 0 < med) then 10 else 0)

/-- Embeds `RiskEngine._calculate_dns_score`. -/
def calculate_dns_score (dns : DnsSig) : ℚ :=
  if ¬ dns.resolved.getD false then 20 else 0

/-- The indicator loop of `RiskEngine._calculate_pattern_score`:
`if 'TLD' in indicator: score += 10 elif 'homograph' in indicator:
score += 15` accumulated over the list. -/
def indicatorLoopScore : List String → ℚ
  | [] => 0
  | ind :: rest =>
      (if containsSub "TLD" ind then (10 : ℚ)
       else if containsSub "homograph" ind then 15 else 0)
        + indicatorLoopScore rest

/-- Embeds `RiskEngine._calculate_pattern_score`. -/
def calculate_pattern_score (signals : SignalBundle) : ℚ :=
  let blacklist := signals.blacklist.getD {}
  let indicators := blacklist.risk_indicators.getD []
  let whois := signals.whois.getD {}
  let domain := whois.domain.getD ""
  indicatorLoopScore indicators
    + (if 30 < domain.length then 5 else 0)
    + (if 5 < digitCount domain then 5 else 0)

/-- Embeds `RiskEngine.calculate_risk_score`: the seven category scores summed
and capped at `max_score = 100`.  (The `except` fallback of the source is
unreachable in this pure embedding: every category function is total.) -/
def calculate_risk_score (signals : SignalBundle) : ℚ :=
  let total :=
    calculate_age_score ((signals.whois.getD {}).domain_age_days.getD 0)
      + calculate_ssl_score (signals.ssl.getD {})
      + calculate_blacklist_score (signals.blacklist.getD {})
      + calculate_hosting_score (signals.hosting.getD {})
      + calculate_content_score (signals.content.getD {})
      + calculate_dns_score (signals.dns.getD {})
      + calculate_pattern_score signals
  min total 100

/-- The scam verdict banner of `RiskEngine.generate_explanations`. -/
def scamBanner : String :=
  "🚨 VERDICT: This domain shows multiple indicators of being a SCAM"

/-- The suspicious verdict banner. -/
def suspiciousBanner : String :=
  "⚠️ VERDICT: This domain is SUSPICIOUS - exercise caution"

/-- The safe verdict banner. -/
def safeBanner : String :=
  "✅ VERDICT: This domain appears relatively SAFE based on available data"

/-- The fixed disclaimer appended at the end of every explanation trail. -/
def disclaimerLine : String :=
  "ℹ️ Note: This analysis is based on automated checks. Always exercise caution online."

/-- The verdict banner chosen by `risk_score` thresholds
(`>= 70` scam, `>= 40` suspicious, else safe). -/
def verdictBanner (risk_score : ℚ) : String :=
  if 70 ≤ risk_score then scamBanner
  else if 40 ≤ risk_score then suspiciousBanner
  else safeBanner

/-- The category lines of `RiskEngine.generate_explanations`
(source lines 127-197), in evaluation order, before the banner is
inserted at position 0 and the trailer appended. -/
def explanationCategoryLines (signals : SignalBundle) : List String :=
  let whois := signals.whois.getD {}
  let age := whois.domain_age_days.getD 0
  let ageLines : List String :=
    if age < 7 then ["🚨 CRITICAL: Domain is extremely new (less than 1 week old)"]
    else if age < 30 then ["⚠️ HIGH RISK: Domain is very new (less than 1 month old)"]
    else if age < 90 then ["⚠️ MEDIUM: Domain is relatively new (less than 3 months old)"]
    else if 365 < age then ["✅ POSITIVE: Domain is well-established (over 1 year old)"]
    else []
  let ssl := signals.ssl.getD {}
  let sslLines : List String :=
    if ¬ ssl.has_ssl.getD false then ["🚨 CRITICAL: No HTTPS/SSL certificate detected"]
    else if ¬ ssl.ssl_valid.getD false then
      ["⚠️ HIGH RISK: SSL certificate is invalid or expired"]
    else
      match ssl.days_until_expiry with
      | some d =>
          if d ≠ 0 ∧ d < 30 then ["⚠️ WARNING: SSL certificate expiring soon"]
          else ["✅ POSITIVE: Valid SSL certificate detected"]
      | none => ["✅ POSITIVE: Valid SSL certificate detected"]
  let blacklist := signals.blacklist.getD {}
  let hits := blacklist.blacklist_hits.getD 0
  let blNames := blacklist.blacklists.getD []
  let joinedNames := String.intercalate ", " (blNames.take 3)
  let blLines : List String :=
    if 0 < hits then
      s!"🚨 CRITICAL: Found on {hits} security blacklist(s)"
        :: (if blNames ≠ [] then [s!"   Blacklists: {joinedNames}"] else [])
    else []
  let patternLines : List String :=
    if blacklist.scam_pattern_detected.getD false then
      ["⚠️ HIGH RISK: Domain name contains scam-related keywords"]
    else []
  let indicatorLines : List String :=
    (blacklist.risk_indicators.getD []).map (fun ind => s!"⚠️ WARNING: {ind}")
  let hosting := signals.hosting.getD {}
  let rep := hosting.reputation_score.getD 50
  let provider := hosting.hosting_provider.getD "Unknown"
  let hostingLines : List String :=
    if rep < 40 then ["⚠️ MEDIUM: Hosted on service with low reputation score"]
    else if 70 < rep then [s!"✅ POSITIVE: Hosted by reputable provider ({provider})"]
    else []
  let content := signals.content.getD {}
  let highRisk := content.high_risk_keywords.getD []
  let mediumRisk := content.medium_risk_keywords.getD []
  let highCount := highRisk.length
  let mediumCount := mediumRisk.length
  let example0 := highRisk.headD ""
  let example1 := if 1 < highRisk.length then highRisk.getD 1 "" else ""
  let contentLines : List String :=
    if content.content_available.getD false then
      (if highRisk ≠ [] then
        s!"🚨 HIGH RISK: Found {highCount} high-risk scam keywords in content"
          :: (if highRisk.take 2 ≠ [] then
               [s!"   Examples: \x27{example0}\x27, \x27{example1}\x27"] else [])
       else [])
        ++ (if mediumRisk ≠ [] then
             [s!"⚠️ MEDIUM: Found {mediumCount} marketing-related keywords"] else [])
        ++ (if content.has_forms.getD false ∧ (highRisk ≠ [] ∨ mediumRisk ≠ []) then
             ["⚠️ WARNING: Site contains forms and suspicious keywords (possible phishing)"]
            else [])
    else []
  let dns := signals.dns.getD {}
  let dnsLines : List String :=
    if ¬ dns.resolved.getD false then
      ["🚨 CRITICAL: Domain does not resolve to an IP address"]
    else []
  ageLines ++ sslLines ++ blLines ++ patternLines ++ indicatorLines
    ++ hostingLines ++ contentLines ++ dnsLines

/-- Embeds `RiskEngine.generate_explanations`: build the category lines, insert
the overall verdict banner at position 0, then append the empty line and
the disclaimer.  (The `except` fallback of the source is unreachable in
this pure embedding.) -/
def generate_explanations (signals : SignalBundle) (risk_score : ℚ) : List String :=
  (verdictBanner risk_score :: explanationCategoryLines signals) ++ ["", disclaimerLine]

end RiskEngine

/-! ## ScoreCombiner (`backend/main.py`) -/

/-- Embeds `main.determine_verdict`: blacklist override first, then
score-threshold buckets.  Note the code's scam verdict string is
`"LIKELY SCAM"` (with a space). -/
def determine_verdict (risk_score : ℚ) (signals : SignalBundle) : String × ℚ :=
  let hits := (signals.blacklist.getD {}).blacklist_hits.getD 0
  if 0 < hits then ("LIKELY SCAM", 95/100)
  else if 70 ≤ risk_score then ("LIKELY SCAM", 85/100)
  else if 40 ≤ risk_score then ("SUSPICIOUS", 75/100)
  else ("SAFE", 80/100)

/-- Embeds `main.check_domain` line 135: the 60/40 blend of the ML risk score
and the rule-based score. -/
def finalRiskScore (ml_risk_score rule_score : ℚ) : ℚ :=
  ml_risk_score * (6/10) + rule_score * (4/10)

/-- The combiner fragment of `main.check_domain` (lines 134-147): blend,
verdict selection on the unrounded blend, and 2-decimal rounding of both
the presented risk score and confidence. -/
def checkDomainCombine (ml_risk_score rule_score : ℚ) (signals : SignalBundle) :
    ℚ × String × ℚ :=
  let final := finalRiskScore ml_risk_score rule_score
  let vc := determine_verdict final signals
  (pyRound2 final, vc.1, pyRound2 vc.2)

/-! ## HeuristicModel, numeric layer (`backend/ai/ml_model.py`)

`MLModel._normalize_features` and `MLModel._calculate_confidence`
restricted to numeric inputs (every present value a rational), the domain
on which claims C1 and C7 quantify.  The `PyVal` layer below embeds the
same functions over possibly non-numeric dictionary values. -/

/-- The raw ML feature dict produced by `main.extract_features`, with
every key optional (defaults applied at each `get` site). -/
structure RawFeatures where
  domain_age_days : Option ℚ := none
  has_https : Option ℚ := none
  ssl_valid : Option ℚ := none
  blacklist_count : Option ℚ := none
  hosting_reputation_score : Option ℚ := none
  content_scam_score : Option ℚ := none
  dns_resolved : Option ℚ := none
  domain_length : Option ℚ := none
  has_whois_privacy : Option ℚ := none
  content_risk_keywords : Option ℚ := none
deriving Repr, DecidableEq

/-- The normalized feature dict: `_normalize_features` always writes all
ten keys. -/
structure NormFeatures where
  domain_age_days : ℚ
  has_https : ℚ
  ssl_valid : ℚ
  blacklist_count : ℚ
  hosting_reputation_score : ℚ
  content_scam_score : ℚ
  dns_resolved : ℚ
  domain_length : ℚ
  has_whois_privacy : ℚ
  content_risk_keywords : ℚ
deriving Repr, DecidableEq

namespace MLModel

/-- Embeds `MLModel._normalize_features` on numeric inputs. -/
def normalize_features (features : RawFeatures) : NormFeatures where
  domain_age_days := min ((features.domain_age_days.getD 0) / (365 * 3)) 1
  has_https := features.has_https.getD 0
  ssl_valid := features.ssl_valid.getD 0
  dns_resolved := features.dns_resolved.getD 0
  has_whois_privacy := features.has_whois_privacy.getD 0
  blacklist_count := min ((features.blacklist_count.getD 0) / 5) 1
  hosting_reputation_score := (features.hosting_reputation_score.getD 50) / 100
  content_scam_score := features.content_scam_score.getD (1/2)
  domain_length := min ((features.domain_length.getD 0) / 50) 1
  content_risk_keywords := min ((features.content_risk_keywords.getD 0) / 10) 1

/-- The `features_with_data` counter of `MLModel._calculate_confidence`:
how many of the four critical-feature checks pass. -/
def dataAvailability (nf : NormFeatures) : ℕ :=
  (if nf.dns_resolved = 1 then 1 else 0)
    + (if 0 < nf.domain_age_days then 1 else 0)
    + (if nf.has_https = 0 ∨ nf.has_https = 1 then 1 else 0)
    + (if nf.content_scam_score ≠ 1/2 then 1 else 0)

/-- Embeds `MLModel._calculate_confidence` on a numeric normalized vector. -/
def calculate_confidence (nf : NormFeatures) : ℚ :=
  let base0 : ℚ := (dataAvailability nf : ℚ) / 4
  let base1 : ℚ := if 0 < nf.blacklist_count then max base0 (9/10) else base0
  let base2 : ℚ :=
    if 7/10 < nf.content_scam_score ∨ nf.content_scam_score < 3/10 then
      max base1 (8/10)
    else base1
  min base2 (95/100)

end MLModel

/-! ## HeuristicModel, dynamic layer

`MLModel.predict` receives an arbitrary Python dict; malformed (string or
`None`) values make the arithmetic inside `_normalize_features`,
`_calculate_score` and `_calculate_confidence` raise `TypeError`, which
`predict` catches, returning the neutral fallback.  `PyVal` models the
dynamic values, `Except String` the exception flow.  `np.exp` is a float
transcendental, abstracted as a parameter `pexp`; `_sigmoid` never raises
(it has its own handler), so it stays total. -/

/-- A dynamically typed Python value as it can appear in the features
dict: a number, a string, or `None`. -/
inductive PyVal where
  | num (q : ℚ)
  | str (s : String)
  | none
deriving Repr, DecidableEq

/-- Python `v / d` for a numeric literal divisor: `TypeError` unless `v`
is a number. -/
def pyDiv (v : PyVal) (d : ℚ) : Except String ℚ :=
  match v with
  | .num q => .ok (q / d)
  | .str _ => .error "unsupported operand type(s) for /: str"
  | .none => .error "unsupported operand type(s) for /: NoneType"

/-- Python `v * w` for a float weight `w`: `TypeError` unless `v` is a
number. -/
def pyMul (v : PyVal) (w : ℚ) : Except String ℚ :=
  match v with
  | .num q => .ok (q * w)
  | .str _ => .error "cannot multiply str by float"
  | .none => .error "unsupported operand type(s) for *: NoneType"

/-- Python `v == c` against a number: never raises, `False` across types. -/
def pyEqNum (v : PyVal) (c : ℚ) : Bool :=
  match v with
  | .num q => q = c
  | _ => false

/-- Python `v != c` against a number: `True` across types. -/
def pyNeNum (v : PyVal) (c : ℚ) : Bool := ! pyEqNum v c

/-- Python `v > c` against a number: `TypeError` across types. -/
def pyGtNum (v : PyVal) (c : ℚ) : Except String Bool :=
  match v with
  | .num q => .ok (c < q)
  | _ => .error "not supported between instances"

/-- Python `v < c` against a number: `TypeError` across types. -/
def pyLtNum (v : PyVal) (c : ℚ) : Except String Bool :=
  match v with
  | .num q => .ok (q < c)
  | _ => .error "not supported between instances"

/-- The raw features dict at dynamic typing: each key absent or holding
an arbitrary Python value. -/
structure RawFeaturesDyn where
  domain_age_days : Option PyVal := Option.none
  has_https : Option PyVal := Option.none
  ssl_valid : Option PyVal := Option.none
  blacklist_count : Option PyVal := Option.none
  hosting_reputation_score : Option PyVal := Option.none
  content_scam_score : Option PyVal := Option.none
  dns_resolved : Option PyVal := Option.none
  domain_length : Option PyVal := Option.none
  has_whois_privacy : Option PyVal := Option.none
  content_risk_keywords : Option PyVal := Option.none
deriving Repr, DecidableEq

/-- The normalized dict at dynamic typing: the five divided-and-capped
entries are numbers whenever normalization succeeded, while the five
pass-through entries keep their dynamic value. -/
structure NormFeaturesDyn where
  domain_age_days : ℚ
  has_https : PyVal
  ssl_valid : PyVal
  dns_resolved : PyVal
  has_whois_privacy : PyVal
  blacklist_count : ℚ
  hosting_reputation_score : ℚ
  content_scam_score : PyVal
  domain_length : ℚ
  content_risk_keywords : ℚ
deriving Repr, DecidableEq

namespace MLModel

/-- Embeds `MLModel._normalize_features` over dynamic values, in source
evaluation order; the divisions raise on non-numeric input. -/
def normalize_featuresDyn (features : RawFeaturesDyn) :
    Except String NormFeaturesDyn := do
  let age ← pyDiv (features.domain_age_days.getD (.num 0)) (365 * 3)
  let bl ← pyDiv (features.blacklist_count.getD (.num 0)) 5
  let rep ← pyDiv (features.hosting_reputation_score.getD (.num 50)) 100
  let len ← pyDiv (features.domain_length.getD (.num 0)) 50
  let kw ← pyDiv (features.content_risk_keywords.getD (.num 0)) 10
  return {
    domain_age_days := min age 1
    has_https := features.has_https.getD (.num 0)
    ssl_valid := features.ssl_valid.getD (.num 0)
    dns_resolved := features.dns_resolved.getD (.num 0)
    has_whois_privacy := features.has_whois_privacy.getD (.num 0)
    blacklist_count := min bl 1
    hosting_reputation_score := rep
    content_scam_score := features.content_scam_score.getD (.num (1/2))
    domain_length := min len 1
    content_risk_keywords := min kw 1 }

/-- Embeds `MLModel._calculate_score`: Σ value·weight over the weight table in
its insertion order; a non-numeric pass-through value raises. -/
def calculate_scoreDyn (nf : NormFeaturesDyn) : Except String ℚ := do
  let tAge := nf.domain_age_days * (-5/100)
  let tHttps ← pyMul nf.has_https (-15/100)
  let tValid ← pyMul nf.ssl_valid (-10/100)
  let tBl := nf.blacklist_count * (30/100)
  let tRep := nf.hosting_reputation_score * (-2/100)
  let tContent ← pyMul nf.content_scam_score (40/100)
  let tDns ← pyMul nf.dns_resolved (-10/100)
  let tLen := nf.domain_length * (1/100)
  let tPriv ← pyMul nf.has_whois_privacy (5/100)
  let tKw := nf.content_risk_keywords * (5/100)
  return tAge + tHttps + tValid + tBl + tRep + tContent + tDns + tLen + tPriv + tKw

/-- Embeds `MLModel._sigmoid` with `np.exp` abstracted as `pexp`: total (the
source wraps it in its own handler). -/
def sigmoidDyn (pexp : ℚ → ℚ) (x : ℚ) : ℚ :=
  1 / (1 + pexp (-(x * 5)))

/-- Embeds `MLModel._calculate_feature_importance`: |value·weight| rounded to 3
decimals per feature, sorted descending (stable, so ties keep the weight
table's encounter order). -/
def calculate_feature_importanceDyn (nf : NormFeaturesDyn) :
    Except String (List (String × ℚ)) := do
  let tHttps ← pyMul nf.has_https (-15/100)
  let tValid ← pyMul nf.ssl_valid (-10/100)
  let tContent ← pyMul nf.content_scam_score (40/100)
  let tDns ← pyMul nf.dns_resolved (-10/100)
  let tPriv ← pyMul nf.has_whois_privacy (5/100)
  let entries : List (String × ℚ) := [
    ("domain_age_days", pyRound3 |nf.domain_age_days * (-5/100)|),
    ("has_https", pyRound3 |tHttps|),
    ("ssl_valid", pyRound3 |tValid|),
    ("blacklist_count", pyRound3 |nf.blacklist_count * (30/100)|),
    ("hosting_reputation_score", pyRound3 |nf.hosting_reputation_score * (-2/100)|),
    ("content_scam_score", pyRound3 |tContent|),
    ("dns_resolved", pyRound3 |tDns|),
    ("domain_length", pyRound3 |nf.domain_length * (1/100)|),
    ("has_whois_privacy", pyRound3 |tPriv|),
    ("content_risk_keywords", pyRound3 |nf.content_risk_keywords * (5/100)|)]
  return entries.mergeSort (fun a b => decide (b.2 ≤ a.2))

/-- Embeds `MLModel._calculate_confidence` over dynamic values; the `>`/`<`
comparisons on `content_scam_score` raise on non-numeric input, the
`==`/`in` checks do not. -/
def calculate_confidenceDyn (nf : NormFeaturesDyn) : Except String ℚ := do
  let avail : ℕ :=
    (if pyEqNum nf.dns_resolved 1 then 1 else 0)
      + (if 0 < nf.domain_age_days then 1 else 0)
      + (if pyEqNum nf.has_https 0 ∨ pyEqNum nf.has_https 1 then 1 else 0)
      + (if pyNeNum nf.content_scam_score (1/2) then 1 else 0)
  let base0 : ℚ := (avail : ℚ) / 4
  let base1 : ℚ := if 0 < nf.blacklist_count then max base0 (9/10) else base0
  let hi ← pyGtNum nf.content_scam_score (7/10)
  let strong ← if hi then pure true else pyLtNum nf.content_scam_score (3/10)
  let base2 : ℚ := if strong then max base1 (8/10) else base1
  return min base2 (95/100)

/-- The result dict of `MLModel.predict`. -/
structure MLResult where
  risk_score : ℚ
  probability : ℚ
  confidence : ℚ
  feature_importance : List (String × ℚ)
  model_version : Option String
  error : Option String
deriving Repr, DecidableEq

/-- The `try` body of `MLModel.predict`, in source evaluation order. -/
def predictBody (pexp : ℚ → ℚ) (features : RawFeaturesDyn) :
    Except String MLResult := do
  let nf ← normalize_featuresDyn features
  let score ← calculate_scoreDyn nf
  let probability := sigmoidDyn pexp score
  let risk : ℚ := probability * 100
  let importance ← calculate_feature_importanceDyn nf
  let confidence ← calculate_confidenceDyn nf
  return {
    risk_score := risk
    probability := probability
    confidence := confidence
    feature_importance := importance
    model_version := some "1.0-simulated"
    error := Option.none }

/-- The fallback result of `MLModel.predict`'s `except` branch. -/
def fallbackResult (e : String) : MLResult where
  risk_score := 50
  probability := 1/2
  confidence := 1/2
  feature_importance := []
  model_version := Option.none
  error := some e

/-- Embeds `MLModel.predict`: the body with every raised error absorbed into
the neutral fallback. -/
def predict (pexp : ℚ → ℚ) (features : RawFeaturesDyn) : MLResult :=
  match predictBody pexp features with
  | .ok r => r
  | .error e => fallbackResult e

end MLModel

/-! ## Supporting lemmas -/

namespace RiskEngine

lemma age_score_nonneg (a : ℤ) : 0 ≤ calculate_age_score a := by
  unfold calculate_age_score; split_ifs <;> norm_num

lemma age_score_le (a : ℤ) : calculate_age_score a ≤ 25 := by
  unfold calculate_age_score; split_ifs <;> norm_num

lemma ssl_score_nonneg (ssl : SslSig) : 0 ≤ calculate_ssl_score ssl := by
  unfold calculate_ssl_score
  cases hd : ssl.days_until_expiry with
  | none => split_ifs <;> norm_num
  | some d =>
      split_ifs <;> try norm_num
      rcases Decidable.em (¬d = 0 ∧ d < 30) with hc | hc <;> simp [hc]

lemma blacklist_score_nonneg (b : BlacklistSig) : 0 ≤ calculate_blacklist_score b := by
  unfold calculate_blacklist_score
  exact le_min (by positivity) (by norm_num)

lemma hosting_score_nonneg (h : HostingSig) : 0 ≤ calculate_hosting_score h := by
  unfold calculate_hosting_score; dsimp only; split_ifs <;> norm_num

lemma content_score_nonneg (c : ContentSig) : 0 ≤ calculate_content_score c := by
  unfold calculate_content_score; dsimp only; split_ifs <;> norm_num

lemma dns_score_nonneg (d : DnsSig) : 0 ≤ calculate_dns_score d := by
  unfold calculate_dns_score; split_ifs <;> norm_num

lemma indicator_loop_nonneg (l : List String) : 0 ≤ indicatorLoopScore l := by
  induction l with
  | nil => simp [indicatorLoopScore]
  | cons ind rest ih =>
      have : (0:ℚ) ≤ if containsSub "TLD" ind then (10:ℚ)
          else if containsSub "homograph" ind then 15 else 0 := by
        split_ifs <;> norm_num
      simp only [indicatorLoopScore]
      linarith

lemma pattern_score_nonneg (s : SignalBundle) : 0 ≤ calculate_pattern_score s := by
  unfold calculate_pattern_score; dsimp only
  have h1 := indicator_loop_nonneg ((s.blacklist.getD {}).risk_indicators.getD [])
  split_ifs <;> linarith

/-- The per-indicator contribution of the pattern-score loop. -/
def indicatorContribution (ind : String) : ℚ :=
  if containsSub "TLD" ind then 10
  else if containsSub "homograph" ind then 15 else 0

lemma indicator_loop_eq_sum (l : List String) :
    indicatorLoopScore l = (l.map indicatorContribution).sum := by
  induction l with
  | nil => simp [indicatorLoopScore]
  | cons ind rest ih => simp [indicatorLoopScore, indicatorContribution, ih]

end RiskEngine

lemma digitCount_empty : digitCount "" = 0 := rfl

lemma emptyString_length : ("" : String).length = 0 := rfl

/-! ## Claim theorems -/

/-- C4: for every `SignalBundle`, `RiskEngine.calculate_risk_score` returns a
value in [0,100] (category scores summed, total capped at 100), and the
blacklist category sub-score equals `min(blacklist_hits * 30, 50)`, hence
never exceeds 50, even for 100 hits. -/
theorem risk_score_bounds_and_blacklist_cap :
    (∀ s : SignalBundle,
      0 ≤ RiskEngine.calculate_risk_score s ∧
      RiskEngine.calculate_risk_score s ≤ 100 ∧
      RiskEngine.calculate_blacklist_score (s.blacklist.getD {}) =
        min (((s.blacklist.getD {}).blacklist_hits.getD 0 : ℚ) * 30) 50 ∧
      RiskEngine.calculate_blacklist_score (s.blacklist.getD {}) ≤ 50) ∧
    RiskEngine.calculate_blacklist_score { blacklist_hits := some 100 } = 50 := by
  constructor
  · intro s
    have hage := RiskEngine.age_score_nonneg ((s.whois.getD {}).domain_age_days.getD 0)
    have hssl := RiskEngine.ssl_score_nonneg (s.ssl.getD {})
    have hbl := RiskEngine.blacklist_score_nonneg (s.blacklist.getD {})
    have hhost := RiskEngine.hosting_score_nonneg (s.hosting.getD {})
    have hcon := RiskEngine.content_score_nonneg (s.content.getD {})
    have hdns := RiskEngine.dns_score_nonneg (s.dns.getD {})
    have hpat := RiskEngine.pattern_score_nonneg s
    refine ⟨?_, ?_, rfl, min_le_right _ _⟩
    · unfold RiskEngine.calculate_risk_score
      exact le_min (by linarith) (by norm_num)
    · unfold RiskEngine.calculate_risk_score
      exact min_le_right _ _
  · norm_num [RiskEngine.calculate_blacklist_score, min_def]

/-- C10: a missing `whois` sub-record (or missing `domain_age_days` key)
is read as 0 days, which lands in the critical `[0,7]` age bracket worth
25 points; the completely empty bundle therefore scores exactly
60 = 25 (age) + 15 (no SSL) + 20 (unresolved DNS). -/
theorem missing_whois_scores_and_empty_bundle :
    (∀ s : SignalBundle,
      (s.whois = none ∨ ∃ w, s.whois = some w ∧ w.domain_age_days = none) →
        (s.whois.getD {}).domain_age_days.getD 0 = 0 ∧
        RiskEngine.calculate_age_score ((s.whois.getD {}).domain_age_days.getD 0) = 25) ∧
    RiskEngine.calculate_ssl_score {} = 15 ∧
    RiskEngine.calculate_dns_score {} = 20 ∧
    RiskEngine.calculate_risk_score emptyBundle = 60 := by
  refine ⟨?_, by simp [RiskEngine.calculate_ssl_score],
    by simp [RiskEngine.calculate_dns_score], ?_⟩
  · intro s h
    have hzero : (s.whois.getD {}).domain_age_days.getD 0 = 0 := by
      rcases h with h | ⟨w, hw, hage⟩
      · rw [h]; rfl
      · rw [hw]; simp [hage]
    refine ⟨hzero, ?_⟩
    rw [hzero]
    norm_num [RiskEngine.calculate_age_score]
  · unfold RiskEngine.calculate_risk_score
    norm_num [RiskEngine.calculate_age_score, RiskEngine.calculate_ssl_score,
      RiskEngine.calculate_blacklist_score, RiskEngine.calculate_hosting_score,
      RiskEngine.calculate_content_score, RiskEngine.calculate_dns_score,
      RiskEngine.calculate_pattern_score, RiskEngine.indicatorLoopScore,
      emptyBundle, min_def, digitCount_empty, emptyString_length]

/-- Witness for C10 at the empty bundle. -/
theorem missing_whois_scores_witness :
    (emptyBundle.whois.getD {}).domain_age_days.getD 0 = 0 ∧
    RiskEngine.calculate_age_score ((emptyBundle.whois.getD {}).domain_age_days.getD 0) = 25 :=
  missing_whois_scores_and_empty_bundle.1 emptyBundle (Or.inl rfl)

/-- A valid certificate recorded as expiring in 0 days. -/
def sslValidZeroExpiry : SslSig :=
  { has_ssl := some true, ssl_valid := some true, days_until_expiry := some 0 }

/-- C5 counterexample: a valid certificate with `days_until_expiry = 0`
scores 0, not the 5 points the claim asserts, because Python's truthiness
guard `if days_until_expiry and days_until_expiry < 30` treats 0 as
falsy. -/
theorem ssl_zero_expiry_counterexample :
    RiskEngine.calculate_ssl_score sslValidZeroExpiry = 0 ∧
    RiskEngine.calculate_ssl_score sslValidZeroExpiry ≠ 5 := by
  have h : RiskEngine.calculate_ssl_score sslValidZeroExpiry = 0 := by
    norm_num [RiskEngine.calculate_ssl_score, sslValidZeroExpiry]
  rw [h]
  norm_num

/-- C5 (amended): the SSL category score by mutually exclusive cases in
priority order — no certificate → 15; present but invalid → 10; valid
with a present, nonzero expiry below 30 days → 5; otherwise (absent
expiry, expiry 0, or expiry ≥ 30 days) → 0. -/
theorem ssl_score_cases (ssl : SslSig) :
    (ssl.has_ssl.getD false = false → RiskEngine.calculate_ssl_score ssl = 15) ∧
    (ssl.has_ssl.getD false = true → ssl.ssl_valid.getD false = false →
      RiskEngine.calculate_ssl_score ssl = 10) ∧
    (∀ d : ℤ, ssl.has_ssl.getD false = true → ssl.ssl_valid.getD false = true →
      ssl.days_until_expiry = some d → d ≠ 0 → d < 30 →
      RiskEngine.calculate_ssl_score ssl = 5) ∧
    (ssl.has_ssl.getD false = true → ssl.ssl_valid.getD false = true →
      ssl.days_until_expiry = none → RiskEngine.calculate_ssl_score ssl = 0) ∧
    (∀ d : ℤ, ssl.has_ssl.getD false = true → ssl.ssl_valid.getD false = true →
      ssl.days_until_expiry = some d → (d = 0 ∨ 30 ≤ d) →
      RiskEngine.calculate_ssl_score ssl = 0) := by
  refine ⟨?_, ?_, ?_, ?_, ?_⟩
  · intro h
    simp [RiskEngine.calculate_ssl_score, h]
  · intro h1 h2
    simp [RiskEngine.calculate_ssl_score, h1, h2]
  · intro d h1 h2 hd hne hlt
    simp [RiskEngine.calculate_ssl_score, h1, h2, hd, hne, hlt]
  · intro h1 h2 hd
    simp [RiskEngine.calculate_ssl_score, h1, h2, hd]
  · intro d h1 h2 hd hor
    rcases hor with h0 | h30
    · subst h0
      simp [RiskEngine.calculate_ssl_score, h1, h2, hd]
    · have hnl : ¬ d < 30 := not_lt.mpr h30
      simp [RiskEngine.calculate_ssl_score, h1, h2, hd, hnl]

/-- Witness for C5 (amended): valid certificate expiring in 10 days → 5. -/
theorem ssl_score_cases_witness :
    RiskEngine.calculate_ssl_score
      { has_ssl := some true, ssl_valid := some true, days_until_expiry := some 10 } = 5 :=
  (ssl_score_cases _).2.2.1 10 rfl rfl rfl (by norm_num) (by norm_num)

/-- A bundle with a single risk indicator mentioning both a suspicious
TLD and a homograph. -/
def tldHomographBundle : SignalBundle :=
  { blacklist := some { risk_indicators := some ["TLD homograph"] } }

/-- C6 counterexample: an indicator mentioning both a suspicious TLD and
a homograph contributes only the 10-point TLD bonus (the source uses
`elif`), not 10 + 15 = 25 as the claim asserts. -/
theorem pattern_both_mentions_counterexample :
    RiskEngine.calculate_pattern_score tldHomographBundle = 10 ∧
    RiskEngine.calculate_pattern_score tldHomographBundle ≠ 25 := by
  have htld : containsSub "TLD" "TLD homograph" = true := by decide
  have h : RiskEngine.calculate_pattern_score tldHomographBundle = 10 := by
    norm_num [RiskEngine.calculate_pattern_score, tldHomographBundle,
      RiskEngine.indicatorLoopScore, htld, digitCount_empty, emptyString_length]
  rw [h]
  norm_num

/-- C6 (amended): the pattern score is the sum of per-indicator
contributions (+10 for a TLD mention, else +15 for a homograph mention —
an indicator mentioning both contributes only the 10-point TLD bonus)
plus +5 for a domain longer than 30 characters and +5 for more than 5
digit characters. -/
theorem pattern_score_amended (s : SignalBundle) :
    RiskEngine.calculate_pattern_score s =
      (((s.blacklist.getD {}).risk_indicators.getD []).map
          RiskEngine.indicatorContribution).sum
        + (if 30 < ((s.whois.getD {}).domain.getD "").length then (5:ℚ) else 0)
        + (if 5 < digitCount ((s.whois.getD {}).domain.getD "") then (5:ℚ) else 0) ∧
    (∀ ind, containsSub "TLD" ind = true →
      RiskEngine.indicatorContribution ind = 10) ∧
    (∀ ind, containsSub "TLD" ind = false → containsSub "homograph" ind = true →
      RiskEngine.indicatorContribution ind = 15) ∧
    (∀ ind, containsSub "TLD" ind = false → containsSub "homograph" ind = false →
      RiskEngine.indicatorContribution ind = 0) := by
  refine ⟨?_, ?_, ?_, ?_⟩
  · unfold RiskEngine.calculate_pattern_score
    dsimp only
    rw [RiskEngine.indicator_loop_eq_sum]
  · intro ind h
    simp [RiskEngine.indicatorContribution, h]
  · intro ind h1 h2
    simp [RiskEngine.indicatorContribution, h1, h2]
  · intro ind h1 h2
    simp [RiskEngine.indicatorContribution, h1, h2]

/-- Witness for C6 (amended): the both-mentioning indicator contributes
exactly the TLD bonus. -/
theorem pattern_score_amended_witness :
    RiskEngine.indicatorContribution "TLD homograph" = 10 :=
  (pattern_score_amended emptyBundle).2.1 "TLD homograph" (by decide)

/-- C2 counterexample: at final score 80 (no blacklist hits) the code's
scam verdict string is `"LIKELY SCAM"` — with a space — not the
`"LIKELY_SCAM"` the claim names. -/
theorem verdict_high_score_string_counterexample :
    (determine_verdict 80 emptyBundle).1 = "LIKELY SCAM" ∧
    (determine_verdict 80 emptyBundle).1 ≠ "LIKELY_SCAM" := by
  have h : (determine_verdict 80 emptyBundle).1 = "LIKELY SCAM" := by
    norm_num [determine_verdict, emptyBundle]
  exact ⟨h, by rw [h]; decide⟩

/-- C2 (amended): `final_score = ml.risk_score * 0.6 + rule_score * 0.4`
(rounded to 2 decimals for presentation), and verdict/confidence chosen
by first match: blacklist hits > 0 → `"LIKELY SCAM"` (the code's string
has a space, not an underscore) at 0.95 regardless of score; else ≥ 70 →
`"LIKELY SCAM"` at 0.85; else ≥ 40 → `"SUSPICIOUS"` at 0.75; else
`"SAFE"` at 0.80; boundary values 70.00 / 69.99 / 40.00 / 39.99 behave
as stated. -/
theorem combine_and_verdict_selection (ml rule : ℚ) (s : SignalBundle) :
    finalRiskScore ml rule = ml * (6/10) + rule * (4/10) ∧
    (checkDomainCombine ml rule s).1 = pyRound2 (finalRiskScore ml rule) ∧
    (checkDomainCombine ml rule s).2.1 = (determine_verdict (finalRiskScore ml rule) s).1 ∧
    (0 < (s.blacklist.getD {}).blacklist_hits.getD 0 →
      determine_verdict (finalRiskScore ml rule) s = ("LIKELY SCAM", 95/100)) ∧
    ((s.blacklist.getD {}).blacklist_hits.getD 0 = 0 →
      70 ≤ finalRiskScore ml rule →
      determine_verdict (finalRiskScore ml rule) s = ("LIKELY SCAM", 85/100)) ∧
    ((s.blacklist.getD {}).blacklist_hits.getD 0 = 0 →
      40 ≤ finalRiskScore ml rule → finalRiskScore ml rule < 70 →
      determine_verdict (finalRiskScore ml rule) s = ("SUSPICIOUS", 75/100)) ∧
    ((s.blacklist.getD {}).blacklist_hits.getD 0 = 0 →
      finalRiskScore ml rule < 40 →
      determine_verdict (finalRiskScore ml rule) s = ("SAFE", 80/100)) ∧
    determine_verdict 70 emptyBundle = ("LIKELY SCAM", 85/100) ∧
    determine_verdict (6999/100) emptyBundle = ("SUSPICIOUS", 75/100) ∧
    determine_verdict 40 emptyBundle = ("SUSPICIOUS", 75/100) ∧
    determine_verdict (3999/100) emptyBundle = ("SAFE", 80/100) := by
  refine ⟨rfl, rfl, rfl, ?_, ?_, ?_, ?_, ?_, ?_, ?_, ?_⟩
  · intro h
    simp [determine_verdict, h]
  · intro h0 h70
    have hn : ¬ 0 < (s.blacklist.getD {}).blacklist_hits.getD 0 := by omega
    simp [determine_verdict, hn, h70]
  · intro h0 h40 h70
    have hn : ¬ 0 < (s.blacklist.getD {}).blacklist_hits.getD 0 := by omega
    have hn70 : ¬ 70 ≤ finalRiskScore ml rule := not_le.mpr h70
    simp [determine_verdict, hn, hn70, h40]
  · intro h0 h40
    have hn : ¬ 0 < (s.blacklist.getD {}).blacklist_hits.getD 0 := by omega
    have hn70 : ¬ 70 ≤ finalRiskScore ml rule := by
      apply not_le.mpr; linarith
    have hn40 : ¬ 40 ≤ finalRiskScore ml rule := not_le.mpr h40
    simp [determine_verdict, hn, hn70, hn40]
  · norm_num [determine_verdict, emptyBundle]
  · norm_num [determine_verdict, emptyBundle]
  · norm_num [determine_verdict, emptyBundle]
  · norm_num [determine_verdict, emptyBundle]

/-- Witness for C2 (amended): ml = 70, rule = 70 gives final score 70 and
the scam verdict at confidence 0.85. -/
theorem combine_and_verdict_selection_witness :
    determine_verdict (finalRiskScore 70 70) emptyBundle = ("LIKELY SCAM", 85/100) :=
  (combine_and_verdict_selection 70 70 emptyBundle).2.2.2.2.1 rfl
    (by norm_num [finalRiskScore])

/-- A bundle listed on exactly one blacklist. -/
def oneHitBundle : SignalBundle :=
  { blacklist := some { blacklist_hits := some 1 } }

/-- C3 counterexample: on a blacklist hit the verdict string is
`"LIKELY SCAM"`, which is none of the three claimed enum strings
`SAFE`, `SUSPICIOUS`, `LIKELY_SCAM`. -/
theorem verdict_enum_counterexample :
    ¬ ((determine_verdict 0 oneHitBundle).1 = "SAFE" ∨
       (determine_verdict 0 oneHitBundle).1 = "SUSPICIOUS" ∨
       (determine_verdict 0 oneHitBundle).1 = "LIKELY_SCAM") := by
  have h : (determine_verdict 0 oneHitBundle).1 = "LIKELY SCAM" := by
    norm_num [determine_verdict, oneHitBundle]
  rw [h]
  decide

/-- C3 (amended): the verdict returned by `determine_verdict` is always
one of the three strings `"SAFE"`, `"SUSPICIOUS"`, `"LIKELY SCAM"` (the
scam value is spelled with a space in the code, not an underscore). -/
theorem verdict_enum_values (risk_score : ℚ) (s : SignalBundle) :
    (determine_verdict risk_score s).1 = "SAFE" ∨
    (determine_verdict risk_score s).1 = "SUSPICIOUS" ∨
    (determine_verdict risk_score s).1 = "LIKELY SCAM" := by
  unfold determine_verdict
  dsimp only
  split_ifs <;> simp

/-- Every normalized feature lies in the closed unit interval. -/
def NormFeatures.allInUnit (nf : NormFeatures) : Prop :=
  (0 ≤ nf.domain_age_days ∧ nf.domain_age_days ≤ 1) ∧
  (0 ≤ nf.has_https ∧ nf.has_https ≤ 1) ∧
  (0 ≤ nf.ssl_valid ∧ nf.ssl_valid ≤ 1) ∧
  (0 ≤ nf.blacklist_count ∧ nf.blacklist_count ≤ 1) ∧
  (0 ≤ nf.hosting_reputation_score ∧ nf.hosting_reputation_score ≤ 1) ∧
  (0 ≤ nf.content_scam_score ∧ nf.content_scam_score ≤ 1) ∧
  (0 ≤ nf.dns_resolved ∧ nf.dns_resolved ≤ 1) ∧
  (0 ≤ nf.domain_length ∧ nf.domain_length ≤ 1) ∧
  (0 ≤ nf.has_whois_privacy ∧ nf.has_whois_privacy ≤ 1) ∧
  (0 ≤ nf.content_risk_keywords ∧ nf.content_risk_keywords ≤ 1)

/-- A raw feature dict with a hosting reputation far above the nominal
0-100 range. -/
def outOfRangeRaw : RawFeatures := { hosting_reputation_score := some 150 }

/-- C1 counterexample: `_normalize_features` divides the hosting
reputation by 100 without clamping, so the out-of-range raw value 150
normalizes to 1.5 and the returned vector is not contained in [0,1]. -/
theorem normalize_out_of_range_counterexample :
    (MLModel.normalize_features outOfRangeRaw).hosting_reputation_score = 3/2 ∧
    ¬ (MLModel.normalize_features outOfRangeRaw).allInUnit := by
  have h : (MLModel.normalize_features outOfRangeRaw).hosting_reputation_score = 3/2 := by
    norm_num [MLModel.normalize_features, outOfRangeRaw]
  refine ⟨h, fun hall => ?_⟩
  have hle := hall.2.2.2.2.1.2
  rw [h] at hle
  norm_num at hle

lemma getD_nonneg_of (o : Option ℚ) (d : ℚ) (hd : 0 ≤ d)
    (h : ∀ q, o = some q → 0 ≤ q) : 0 ≤ o.getD d := by
  cases ho : o with
  | none => simpa using hd
  | some q => simpa using h q ho

lemma getD_binary_unit (o : Option ℚ) (h : ∀ q, o = some q → q = 0 ∨ q = 1) :
    0 ≤ o.getD 0 ∧ o.getD 0 ≤ 1 := by
  cases ho : o with
  | none => norm_num
  | some q => rcases h q ho with h1 | h1 <;> simp [h1]

/-- C1 (amended): the min-capped normalizations clamp only from above,
so the invariant holds on raw inputs within their nominal ranges
(non-negative counts and lengths, binary flags in {0,1}, hosting
reputation in [0,100], content scam score in [0,1]); and
`domain_age_days = 100000` normalizes to exactly 1. -/
theorem normalized_in_unit_of_nominal (f : RawFeatures)
    (hage : ∀ q, f.domain_age_days = some q → 0 ≤ q)
    (hhttps : ∀ q, f.has_https = some q → q = 0 ∨ q = 1)
    (hvalid : ∀ q, f.ssl_valid = some q → q = 0 ∨ q = 1)
    (hbl : ∀ q, f.blacklist_count = some q → 0 ≤ q)
    (hrep : ∀ q, f.hosting_reputation_score = some q → 0 ≤ q ∧ q ≤ 100)
    (hcs : ∀ q, f.content_scam_score = some q → 0 ≤ q ∧ q ≤ 1)
    (hdns : ∀ q, f.dns_resolved = some q → q = 0 ∨ q = 1)
    (hlen : ∀ q, f.domain_length = some q → 0 ≤ q)
    (hpriv : ∀ q, f.has_whois_privacy = some q → q = 0 ∨ q = 1)
    (hkw : ∀ q, f.content_risk_keywords = some q → 0 ≤ q) :
    (MLModel.normalize_features f).allInUnit ∧
    (MLModel.normalize_features { domain_age_days := some 100000 }).domain_age_days = 1 := by
  constructor
  · have hagev := getD_nonneg_of f.domain_age_days 0 le_rfl hage
    have hblv := getD_nonneg_of f.blacklist_count 0 le_rfl hbl
    have hlenv := getD_nonneg_of f.domain_length 0 le_rfl hlen
    have hkwv := getD_nonneg_of f.content_risk_keywords 0 le_rfl hkw
    have hrepv : 0 ≤ f.hosting_reputation_score.getD 50 ∧
        f.hosting_reputation_score.getD 50 ≤ 100 := by
      cases ho : f.hosting_reputation_score with
      | none => norm_num
      | some q => simpa using hrep q ho
    have hcsv : 0 ≤ f.content_scam_score.getD (1/2) ∧
        f.content_scam_score.getD (1/2) ≤ 1 := by
      cases ho : f.content_scam_score with
      | none => norm_num
      | some q => simpa using hcs q ho
    unfold NormFeatures.allInUnit MLModel.normalize_features
    dsimp only
    refine ⟨⟨le_min (div_nonneg hagev (by norm_num)) zero_le_one, min_le_right _ _⟩,
      getD_binary_unit _ hhttps, getD_binary_unit _ hvalid,
      ⟨le_min (div_nonneg hblv (by norm_num)) zero_le_one, min_le_right _ _⟩,
      ⟨div_nonneg hrepv.1 (by norm_num), ?_⟩, hcsv, getD_binary_unit _ hdns,
      ⟨le_min (div_nonneg hlenv (by norm_num)) zero_le_one, min_le_right _ _⟩,
      getD_binary_unit _ hpriv,
      ⟨le_min (div_nonneg hkwv (by norm_num)) zero_le_one, min_le_right _ _⟩⟩
    rw [div_le_one (by norm_num)]
    exact hrepv.2
  · unfold MLModel.normalize_features
    norm_num [min_def]

/-- Witness for C1 (amended) at the 100000-day-old domain input. -/
theorem normalized_in_unit_witness :
    (MLModel.normalize_features { domain_age_days := some 100000 }).allInUnit ∧
    (MLModel.normalize_features { domain_age_days := some 100000 }).domain_age_days = 1 := by
  have h := normalized_in_unit_of_nominal { domain_age_days := some 100000 }
    (fun q hq => by injection hq with h; rw [← h]; norm_num)
    (fun q hq => Option.noConfusion hq) (fun q hq => Option.noConfusion hq)
    (fun q hq => Option.noConfusion hq) (fun q hq => Option.noConfusion hq)
    (fun q hq => Option.noConfusion hq) (fun q hq => Option.noConfusion hq)
    (fun q hq => Option.noConfusion hq) (fun q hq => Option.noConfusion hq)
    (fun q hq => Option.noConfusion hq)
  exact h

/-- The unfolding of `MLModel._calculate_confidence`. -/
lemma calculate_confidence_eq (nf : NormFeatures) :
    MLModel.calculate_confidence nf =
      min
        (if 7/10 < nf.content_scam_score ∨ nf.content_scam_score < 3/10 then
          max (if 0 < nf.blacklist_count then
                max ((MLModel.dataAvailability nf : ℚ) / 4) (9/10)
               else (MLModel.dataAvailability nf : ℚ) / 4) (8/10)
         else
          (if 0 < nf.blacklist_count then
            max ((MLModel.dataAvailability nf : ℚ) / 4) (9/10)
           else (MLModel.dataAvailability nf : ℚ) / 4))
        (95/100) := rfl

/-- C7: the confidence starts from the data-availability quarter count,
is raised to at least 0.9 on any blacklist evidence, to at least 0.8 on
a strong content signal, and always lies in [0, 0.95]. -/
theorem confidence_properties (nf : NormFeatures) :
    0 ≤ MLModel.calculate_confidence nf ∧
    MLModel.calculate_confidence nf ≤ 95/100 ∧
    (0 < nf.blacklist_count → 9/10 ≤ MLModel.calculate_confidence nf) ∧
    ((7/10 < nf.content_scam_score ∨ nf.content_scam_score < 3/10) →
      8/10 ≤ MLModel.calculate_confidence nf) ∧
    (¬ 0 < nf.blacklist_count →
      ¬ (7/10 < nf.content_scam_score ∨ nf.content_scam_score < 3/10) →
      MLModel.calculate_confidence nf =
        min ((MLModel.dataAvailability nf : ℚ) / 4) (95/100)) ∧
    MLModel.dataAvailability nf ≤ 4 := by
  have hb0 : (0:ℚ) ≤ (MLModel.dataAvailability nf : ℚ) / 4 := by positivity
  refine ⟨?_, ?_, ?_, ?_, ?_, ?_⟩
  · rw [calculate_confidence_eq]
    refine le_min ?_ (by norm_num)
    split_ifs <;>
      first
        | exact hb0
        | exact le_trans (by norm_num) (le_max_right _ _)
  · rw [calculate_confidence_eq]
    exact min_le_right _ _
  · intro h
    rw [calculate_confidence_eq]
    refine le_min ?_ (by norm_num)
    split_ifs <;>
      first
        | exact absurd h (by assumption)
        | exact le_max_right _ _
        | exact le_trans (le_max_right _ _) (le_max_left _ _)
  · intro h
    rw [calculate_confidence_eq, if_pos h]
    exact le_min (le_max_right _ _) (by norm_num)
  · intro h1 h2
    rw [calculate_confidence_eq, if_neg h2, if_neg h1]
  · unfold MLModel.dataAvailability
    split_ifs <;> norm_num

/-- Witness for C7 at a vector with one (normalized) blacklist hit. -/
theorem confidence_properties_witness :
    9/10 ≤ MLModel.calculate_confidence
      { domain_age_days := 0, has_https := 0, ssl_valid := 0, blacklist_count := 1/5,
        hosting_reputation_score := 1/2, content_scam_score := 1/2, dns_resolved := 0,
        domain_length := 0, has_whois_privacy := 0, content_risk_keywords := 0 } :=
  (confidence_properties _).2.2.1 (by norm_num)

/-- C8: any error raised inside the body of `MLModel.predict` is
absorbed: the caller receives the neutral fallback result (risk 50,
probability 0.5, confidence 0.5, empty importance) with the error only
as a metadata string, never a raised exception. -/
theorem predict_error_fallback (pexp : ℚ → ℚ) (f : RawFeaturesDyn) (e : String)
    (h : MLModel.predictBody pexp f = .error e) :
    MLModel.predict pexp f = MLModel.fallbackResult e ∧
    (MLModel.predict pexp f).risk_score = 50 ∧
    (MLModel.predict pexp f).probability = 1/2 ∧
    (MLModel.predict pexp f).confidence = 1/2 ∧
    (MLModel.predict pexp f).feature_importance = [] ∧
    (MLModel.predict pexp f).error = some e := by
  have hp : MLModel.predict pexp f = MLModel.fallbackResult e := by
    unfold MLModel.predict
    rw [h]
  exact ⟨hp, by rw [hp]; rfl, by rw [hp]; rfl, by rw [hp]; rfl,
    by rw [hp]; rfl, by rw [hp]; rfl⟩

/-- Witness for C8: a malformed features dict (string where a number is
expected) makes the body raise, and `predict` returns the fallback. -/
theorem predict_error_fallback_witness :
    MLModel.predictBody (fun _ => 1) { domain_age_days := some (.str "three") } =
      .error "unsupported operand type(s) for /: str" ∧
    MLModel.predict (fun _ => 1) { domain_age_days := some (.str "three") } =
      MLModel.fallbackResult "unsupported operand type(s) for /: str" :=
  ⟨rfl, (predict_error_fallback (fun _ => 1) { domain_age_days := some (.str "three") }
    "unsupported operand type(s) for /: str" rfl).1⟩

/-- C9: the explanation trail always starts with the verdict banner
chosen by the final-score thresholds (≥70 scam, ≥40 suspicious, else
safe) and ends with an empty string followed by the fixed disclaimer,
whatever category lines the bundle produces. -/
theorem explanation_trail_shape (s : SignalBundle) (risk_score : ℚ) :
    ∃ body : List String,
      RiskEngine.generate_explanations s risk_score =
        (if 70 ≤ risk_score then RiskEngine.scamBanner
         else if 40 ≤ risk_score then RiskEngine.suspiciousBanner
         else RiskEngine.safeBanner) :: (body ++ ["", RiskEngine.disclaimerLine]) :=
  ⟨RiskEngine.explanationCategoryLines s, by
    simp [RiskEngine.generate_explanations, RiskEngine.verdictBanner]⟩
